import Mathlib

/-
Verification of the guhae rental-property API core (src/src/lambda_function.py):
a shallow embedding of the single-table access layer, the property/finance/loan
handlers, and the record codec, together with proofs about them.

Modelling conventions:
* Python scalar values are `PyVal`; floats and `decimal.Decimal` both carry an
  exact rational value (`float(Decimal(str(f)))` recovers the float exactly for
  the shortest-repr decimals produced by `str`, so value-level reasoning is
  faithful).
* A Python dict is an association list with unique keys (`Item`); all dict
  writes go through `dset`, which preserves key uniqueness.
* The DynamoDB table is a list of items keyed by their `pk`/`sk` attributes;
  `put_item` overwrites the item with the same key, `get_item` finds it,
  `delete_item` removes it.
-/

namespace Guhae

/-- A Python scalar value as it appears in request bodies and stored items.
`vFloat` is a `float`, `vDec` a `decimal.Decimal`; both carry the exact
rational value. -/
inductive PyVal where
  | vStr : String → PyVal
  | vInt : Int → PyVal
  | vFloat : ℚ → PyVal
  | vDec : ℚ → PyVal
  | vBool : Bool → PyVal
  | vNone : PyVal
deriving DecidableEq, Repr

open PyVal

/-- A Python dict with scalar values (all dicts handled by the modelled code
paths are flat with scalar values). -/
abbrev Item := List (String × PyVal)

/-- The DynamoDB table: a collection of items. -/
abbrev Table := List Item

/-- `d[k]` lookup returning `none` when the key is absent. -/
def dfind (d : Item) (k : String) : Option PyVal :=
  (d.find? (fun kv => kv.1 == k)).map Prod.snd

/-- Python `d.get(k, dflt)`. -/
def dget (d : Item) (k : String) (dflt : PyVal) : PyVal :=
  (dfind d k).getD dflt

/-- Python `d[k] = v`: replace the existing binding or append a new one. -/
def dset (d : Item) (k : String) (v : PyVal) : Item :=
  if (d.find? (fun kv => kv.1 == k)).isSome then
    d.map (fun kv => if kv.1 == k then (k, v) else kv)
  else
    d ++ [(k, v)]

/-- Python `d.pop(k)` (dropping the returned value). -/
def dremove (d : Item) (k : String) : Item :=
  d.filter (fun kv => kv.1 != k)

/-- `d[kNew] = d.pop(kOld)` when `kOld` is present, else no change. -/
def renameKey (d : Item) (kOld kNew : String) : Item :=
  match dfind d kOld with
  | none => d
  | some v => dset (dremove d kOld) kNew v

/-- Python truthiness of a scalar. -/
def pyTruthy : PyVal → Bool
  | vStr s => s != ""
  | vInt n => n != 0
  | vFloat q => q != 0
  | vDec q => q != 0
  | vBool b => b
  | vNone => false

/-- Python `int(v)` (truncation toward zero, as `int` does on float/Decimal);
`none` when the call would raise. -/
def pyToInt : PyVal → Option Int
  | vInt n => some n
  | vFloat q => some (q.num.tdiv (q.den : Int))
  | vDec q => some (q.num.tdiv (q.den : Int))
  | vBool b => some (if b then 1 else 0)
  | vStr s => s.toInt?
  | vNone => none

/-- `convert_floats_to_decimals` on one scalar: `Decimal(str(f))` has the same
value as `f` for the decimals `str` produces. -/
def convertFloat : PyVal → PyVal
  | vFloat q => vDec q
  | v => v

/-- `convert_floats_to_decimals` over a (flat) dict. -/
def convertItemFloats (d : Item) : Item :=
  d.map (fun kv => (kv.1, convertFloat kv.2))

/-- The numeric value of a scalar, when it has one. -/
def asRat : PyVal → Option ℚ
  | vInt n => some (n : ℚ)
  | vFloat q => some q
  | vDec q => some q
  | _ => none

/-- Value equality: numeric values compare by value (int/float/Decimal are
interchangeable, as in Python `==`), everything else structurally. -/
def valEq (a b : PyVal) : Bool :=
  match asRat a, asRat b with
  | some x, some y => x == y
  | _, _ => a == b

/-- Python `s.startswith(pre)` (structural, so it evaluates in the kernel). -/
def strStartsWith (s pre : String) : Bool :=
  pre.data.isPrefixOf s.data

/-! ### Key-value store operations -/

/-- `table.get_item(Key={'pk': pk, 'sk': sk})`. -/
def getItem (t : Table) (pk sk : String) : Option Item :=
  t.find? (fun it => dfind it "pk" == some (vStr pk) && dfind it "sk" == some (vStr sk))

/-- Whether two items share their composite primary key. -/
def sameKey (a b : Item) : Bool :=
  dfind a "pk" == dfind b "pk" && dfind a "sk" == dfind b "sk"

/-- `table.put_item(Item=it)`: overwrite any item with the same key. -/
def putItem (t : Table) (it : Item) : Table :=
  (t.filter (fun x => !sameKey x it)) ++ [it]

/-- `table.delete_item(Key={'pk': pk, 'sk': sk})`. -/
def deleteItem (t : Table) (pk sk : String) : Table :=
  t.filter (fun it => !(dfind it "pk" == some (vStr pk) && dfind it "sk" == some (vStr sk)))

/-! ### Record codec: `format_property` -/

/-- `float(item.get(k, 0)) if isinstance(item.get(k), Decimal) else item.get(k, 0)`:
the per-field numeric normalization used by the formatters. -/
def decOr (item : Item) (k : String) : PyVal :=
  match dfind item k with
  | some (vDec q) => vFloat q
  | some v => v
  | none => vInt 0

/-- `float(v)` when `v` is a `Decimal`, else `v` unchanged: the value-level
form of the `isinstance(..., Decimal)` branches. -/
def decToF : PyVal → PyVal
  | vDec q => vFloat q
  | v => v

/-- `int(item.get(k, 0)) if item.get(k) else 0` as a function of
`v = item.get(k)` (when `v` is truthy the key is present, so the two `get`
calls return the same value and the differing defaults are immaterial);
`none` when `int(...)` raises. -/
def intFieldBind (v : PyVal) : Option PyVal :=
  if pyTruthy v then (pyToInt v).map vInt else some (vInt 0)

/-- `int(item.get('squareFeet', 0)) if item.get('squareFeet') else None` as a
function of `v = item.get('squareFeet')`. -/
def sqFieldBind (v : PyVal) : Option PyVal :=
  if pyTruthy v then (pyToInt v).map vInt else some vNone

/-- `int(item.get('term_years', 30)) if item.get('term_years') else 30` as a
function of `v = item.get('term_years')`. -/
def termBind (v : PyVal) : Option PyVal :=
  if pyTruthy v then (pyToInt v).map vInt else some (vInt 30)

/-- The wire representation of a property that `format_property` produces.
The nested `address` dict is flattened into the `addr*` fields; `owner_id` is
`none` when the minimal-safe fallback dict (which has no `owner_id` key) was
produced; `images` is `none` when the item has no `images` attribute, standing
for the default empty list (stored items in the modelled flows hold only
scalars and never an `images` attribute). -/
structure WireProperty where
  id : PyVal
  owner_id : Option PyVal
  title : PyVal
  description : PyVal
  propertyType : PyVal
  status : PyVal
  createdAt : PyVal
  updatedAt : PyVal
  images : Option PyVal
  rent : PyVal
  bedrooms : PyVal
  bathrooms : PyVal
  squareFeet : PyVal
  garageType : PyVal
  garageCars : PyVal
  addrStreet : PyVal
  addrCity : PyVal
  addrCounty : PyVal
  addrState : PyVal
  addrZip : PyVal
  addrCountry : PyVal
deriving DecidableEq, Repr

/-- The `try` branch of `format_property`; `none` when one of the `int(...)`
calls would raise (sending the source to its `except` branch). -/
def format_property_core (item : Item) : Option WireProperty := do
  let bedrooms ← intFieldBind (dget item "bedrooms" vNone)
  let squareFeet ← sqFieldBind (dget item "squareFeet" vNone)
  let garageCars ← intFieldBind (dget item "garageCars" vNone)
  some
    { id := dget item "id" (dget item "property_id" (vStr ""))
      owner_id := some (dget item "owner_id" (vStr ""))
      title := dget item "title" (vStr "")
      description := dget item "description" (vStr "")
      propertyType := dget item "property_type" (vStr "")
      status := dget item "status" (vStr "active")
      createdAt := dget item "created_at" (vStr "")
      updatedAt := dget item "updated_at" (vStr "")
      images := dfind item "images"
      rent := decOr item "price"
      bedrooms := bedrooms
      bathrooms := decOr item "bathrooms"
      squareFeet := squareFeet
      garageType := dget item "garageType" (vStr "")
      garageCars := garageCars
      addrStreet := dget item "street_address" (vStr "")
      addrCity := dget item "city" (vStr "")
      addrCounty := dget item "county" (vStr "")
      addrState := dget item "state" (vStr "")
      addrZip := dget item "zip_code" (vStr "")
      addrCountry := dget item "country" (vStr "US") }

/-- The `except` branch of `format_property`: the minimal safe representation
(note: it carries no `owner_id` key). -/
def format_property_fallback (item : Item) : WireProperty :=
  { id := dget item "id" (vStr "unknown")
    owner_id := none
    title := dget item "title" (vStr "Unknown Property")
    description := dget item "description" (vStr "")
    propertyType := dget item "property_type" (vStr "unknown")
    status := vStr "active"
    createdAt := dget item "created_at" (vStr "")
    updatedAt := dget item "updated_at" (vStr "")
    images := none
    rent := vInt 0
    bedrooms := vInt 0
    bathrooms := vInt 0
    squareFeet := vNone
    garageType := vStr ""
    garageCars := vInt 0
    addrStreet := vStr ""
    addrCity := vStr ""
    addrCounty := vStr ""
    addrState := vStr ""
    addrZip := vStr ""
    addrCountry := vStr "US" }

/-- `format_property`: format with internal error trapping. -/
def format_property (item : Item) : WireProperty :=
  (format_property_core item).getD (format_property_fallback item)

/-! ### Loan / finance codec -/

/-- The `try` branch of `format_loan_data`; `none` when `int(term_years)`
would raise. -/
def format_loan_core (item : Item) : Option Item := do
  let termYears ← termBind (dget item "term_years" vNone)
  some
    [("id", dget item "loan_id" (vStr "")),
     ("propertyId", dget item "property_id" (vStr "")),
     ("lender", dget item "lender" (vStr "")),
     ("loanType", dget item "loan_type" (vStr "")),
     ("originalAmount", decOr item "original_amount"),
     ("currentBalance", decOr item "current_balance"),
     ("interestRate", decOr item "interest_rate"),
     ("termYears", termYears),
     ("monthlyPayment", decOr item "monthly_payment"),
     ("startDate", dget item "start_date" (vStr "")),
     ("maturityDate", dget item "maturity_date" (vStr "")),
     ("isActive", dget item "is_active" (vBool true)),
     ("createdAt", dget item "created_at" (vStr "")),
     ("updatedAt", dget item "updated_at" (vStr ""))]

/-- `format_loan_data` with its `except`-branch minimal representation. -/
def format_loan_data (item : Item) : Item :=
  (format_loan_core item).getD
    [("id", dget item "loan_id" (vStr "")),
     ("lender", vStr "Unknown"),
     ("loanType", vStr "unknown"),
     ("originalAmount", vInt 0),
     ("currentBalance", vInt 0),
     ("interestRate", vInt 0),
     ("isActive", vBool true)]

/-- The string carried by a scalar (finance items store `property_id` as a
string; used where the source interpolates it into a key). -/
def pyStrD (v : PyVal) : String :=
  match v with
  | vStr s => s
  | _ => ""

/-- The loan query inside `format_finance_data`: partition `PROPERTY#{pid}`
with sort-key prefix `LOAN#`. -/
def queryLoans (t : Table) (pid : String) : List Item :=
  t.filter (fun it =>
    dfind it "pk" == some (vStr ("PROPERTY#" ++ pid)) &&
    (match dfind it "sk" with
     | some (vStr s) => strStartsWith s "LOAN#"
     | _ => false))

/-- The wire representation of a finance record. `ownershipType` and
`ownershipStatus` are `vNone` for JSON null; `purchaseInfo` is an (assoc-list)
dict, `[]` for the empty dict; `createdAt`/`updatedAt` are `none` when the
response dict carries no such key (the empty-structure branch). -/
structure FinanceWire where
  propertyId : PyVal
  ownershipType : PyVal
  ownershipStatus : PyVal
  purchaseInfo : Item
  loans : List Item
  createdAt : Option PyVal
  updatedAt : Option PyVal
deriving DecidableEq, Repr

/-- `format_finance_data` (the loan query reads the table; store-level
failures are outside the model, so the source's `except` branch is not
reachable here). -/
def format_finance_data (t : Table) (item : Item) : FinanceWire :=
  let pidv := dget item "property_id" (vStr "")
  { propertyId := pidv
    ownershipType := dget item "ownership_type" (vStr "individual")
    ownershipStatus := dget item "ownership_status" (vStr "owned")
    purchaseInfo :=
      [("purchasePrice", decOr item "purchase_price"),
       ("purchaseDate", dget item "purchase_date" (vStr "")),
       ("downPayment", decOr item "down_payment"),
       ("closingCosts", decOr item "closing_costs"),
       ("builder", dget item "builder" (vStr "")),
       ("seller", dget item "seller" (vStr "")),
       ("buyerAgent", dget item "buyer_agent" (vStr "")),
       ("sellerAgent", dget item "seller_agent" (vStr "")),
       ("titleCompany", dget item "title_company" (vStr ""))]
    loans := if pyTruthy pidv then (queryLoans t (pyStrD pidv)).map format_loan_data else []
    createdAt := some (dget item "created_at" (vStr ""))
    updatedAt := some (dget item "updated_at" (vStr "")) }

/-! ### Resource handlers

Each handler is a function of the resolved caller identity
(`auth : Option String`, `none` when `get_authenticated_user_id` yields no
caller), the table state, the path parameters, and the parsed request body
(`Option Item`, `none` when `json.loads` raises). The result records the HTTP
status, the table after the call, and the response payload. Generated ids and
timestamps are passed as parameters. -/

/-- The item `create_property` builds before the float-to-decimal pass. -/
def buildPropertyItem (owner pid : String) (data : Item) (now : String) : Item :=
  [("pk", vStr ("PROPERTY#" ++ pid)),
   ("sk", vStr "METADATA"),
   ("gsi1pk", vStr ("OWNER#" ++ owner)),
   ("id", vStr pid),
   ("owner_id", vStr owner),
   ("title", dget data "title" (vStr "")),
   ("description", dget data "description" (vStr "")),
   ("property_type", dget data "property_type" (dget data "propertyType" (vStr ""))),
   ("price", dget data "price" (dget data "rent" (vInt 0))),
   ("bedrooms", dget data "bedrooms" (vInt 0)),
   ("bathrooms", dget data "bathrooms" (vInt 0)),
   ("squareFeet", dget data "squareFeet" (dget data "squareFootage" vNone)),
   ("garageType", dget data "garageType" (vStr "")),
   ("garageCars", dget data "garageCars" (vInt 0)),
   ("street_address", dget data "streetAddress" (vStr "")),
   ("city", dget data "city" (vStr "")),
   ("county", dget data "county" (vStr "")),
   ("state", dget data "state" (vStr "")),
   ("zip_code", dget data "zipCode" (vStr "")),
   ("country", dget data "country" (vStr "US")),
   ("status", vStr "active"),
   ("created_at", vStr now),
   ("updated_at", vStr now),
   ("created_by", vStr "property-owner")]

/-- Python `v < 0` on the value read for `price`; `none` when the comparison
would raise a `TypeError` (caught by the handler's outer `except` → 500). -/
def pyLtZero : PyVal → Option Bool
  | vInt n => some (decide (n < 0))
  | vFloat q => some (decide (q < 0))
  | vDec q => some (decide (q < 0))
  | vBool _ => some false
  | vStr _ => none
  | vNone => none

structure CreateResult where
  status : Nat
  table : Table
  prop : Option WireProperty
deriving Repr

/-- `create_property`: authenticate, validate
(`not data.get('title') or (data.get('price', 0) is not None and data.get('price', 0) < 0)`),
build the item, convert floats to decimals, `put_item`, format. -/
def create_property (auth : Option String) (t : Table) (body : Option Item)
    (pid now : String) : CreateResult :=
  match auth with
  | none => ⟨401, t, none⟩
  | some owner =>
    match body with
    | none => ⟨500, t, none⟩
    | some data =>
      if !pyTruthy (dget data "title" vNone) then ⟨400, t, none⟩
      else
        let p := dget data "price" (vInt 0)
        if p == vNone then
          let item := convertItemFloats (buildPropertyItem owner pid data now)
          ⟨201, putItem t item, some (format_property item)⟩
        else
          match pyLtZero p with
          | none => ⟨500, t, none⟩
          | some true => ⟨400, t, none⟩
          | some false =>
            let item := convertItemFloats (buildPropertyItem owner pid data now)
            ⟨201, putItem t item, some (format_property item)⟩

structure GetResult where
  status : Nat
  prop : Option WireProperty
deriving Repr

/-- `get_property`: authenticate, load (404 when absent), then check
ownership (403), then format. -/
def get_property (auth : Option String) (t : Table) (pid : String) : GetResult :=
  match auth with
  | none => ⟨401, none⟩
  | some owner =>
    match getItem t ("PROPERTY#" ++ pid) "METADATA" with
    | none => ⟨404, none⟩
    | some it =>
      if !(dget it "owner_id" vNone == vStr owner) then ⟨403, none⟩
      else ⟨200, some (format_property it)⟩

/-- The effect of `update_property`'s `SET k = :k, ...` expression on the
stored item: every body field except `id` is written (the reserved-keyword
`ExpressionAttributeNames` aliasing only changes the expression's spelling,
not which attribute is written). -/
def applyPropertyUpdate (old data : Item) : Item :=
  data.foldl (fun acc kv => if kv.1 == "id" then acc else dset acc kv.1 kv.2) old

/-- `update_property`'s body preprocessing: stamp `updated_at`, rename
`streetAddress` → `street_address` and `zipCode` → `zip_code`, then convert
floats to decimals. -/
def preprocessUpdateBody (data : Item) (now : String) : Item :=
  convertItemFloats
    (renameKey (renameKey (dset data "updated_at" (vStr now))
      "streetAddress" "street_address") "zipCode" "zip_code")

structure UpdateResult where
  status : Nat
  table : Table
  prop : Option WireProperty
deriving Repr

/-- `update_property`: authenticate; load (404); ownership (403); parse body
(500 on failure); stamp `updated_at`; rename `streetAddress`/`zipCode`;
convert floats; apply the update expression and overwrite the stored item,
returning the post-update item (`ReturnValues='ALL_NEW'`). A body naming the
key attributes `pk`/`sk` would make DynamoDB reject the update expression
(500, no write). -/
def update_property (auth : Option String) (t : Table) (pid : String)
    (body : Option Item) (now : String) : UpdateResult :=
  match auth with
  | none => ⟨401, t, none⟩
  | some owner =>
    match getItem t ("PROPERTY#" ++ pid) "METADATA" with
    | none => ⟨404, t, none⟩
    | some it =>
      if !(dget it "owner_id" vNone == vStr owner) then ⟨403, t, none⟩
      else
        match body with
        | none => ⟨500, t, none⟩
        | some data =>
          let d := preprocessUpdateBody data now
          if (dfind d "pk").isSome || (dfind d "sk").isSome then ⟨500, t, none⟩
          else
            let newIt := applyPropertyUpdate it d
            ⟨200, putItem t newIt, some (format_property newIt)⟩

/-- `delete_property(property_id, headers)`: the source performs no
authentication, no existence check and no ownership check — it deletes
unconditionally and returns 200. (It does not even receive the request event,
so it cannot inspect credentials.) -/
def delete_property (t : Table) (pid : String) : Nat × Table :=
  (200, deleteItem t ("PROPERTY#" ++ pid) "METADATA")

/-- The client-side filter in `list_properties` / `get_dashboard_stats`:
partition key prefixed `PROPERTY#`, sort key `METADATA`, `owner_id` equal to
the caller. (Non-string `pk`/`sk` values would raise in `startswith`; the
modelled tables store string keys.) -/
def ownedPropertyItem (owner : String) (it : Item) : Bool :=
  (match dfind it "pk" with
   | some (vStr s) => strStartsWith s "PROPERTY#"
   | _ => false) &&
  dfind it "sk" == some (vStr "METADATA") &&
  dget it "owner_id" vNone == vStr owner

structure ListResult where
  status : Nat
  props : List WireProperty
deriving Repr

/-- `list_properties`: authenticate; query the `gsi1` secondary index for
`OWNER#{owner}`, falling back to an unfiltered `table.scan()` when the query
raises (`gsiOk = false`); then filter client-side and format. -/
def list_properties (auth : Option String) (t : Table) (gsiOk : Bool) : ListResult :=
  match auth with
  | none => ⟨401, []⟩
  | some owner =>
    let source :=
      if gsiOk then t.filter (fun it => dfind it "gsi1pk" == some (vStr ("OWNER#" ++ owner)))
      else t
    ⟨200, (source.filter (ownedPropertyItem owner)).map format_property⟩

structure FinanceResult where
  status : Nat
  finance : Option FinanceWire
deriving Repr

/-- The empty finance structure returned when no FINANCE record exists:
`{'propertyId': pid, 'ownershipType': None, 'ownershipStatus': None,
'purchaseInfo': {}, 'loans': []}`. -/
def emptyFinance (pid : String) : FinanceWire :=
  { propertyId := vStr pid
    ownershipType := vNone
    ownershipStatus := vNone
    purchaseInfo := []
    loans := []
    createdAt := none
    updatedAt := none }

/-- `get_property_finance`: authenticate; load the parent property (404);
ownership (403); then the FINANCE record, returning the empty structure with
200 when it is absent. -/
def get_property_finance (auth : Option String) (t : Table) (pid : String) : FinanceResult :=
  match auth with
  | none => ⟨401, none⟩
  | some owner =>
    match getItem t ("PROPERTY#" ++ pid) "METADATA" with
    | none => ⟨404, none⟩
    | some it =>
      if !(dget it "owner_id" vNone == vStr owner) then ⟨403, none⟩
      else
        match getItem t ("PROPERTY#" ++ pid) "FINANCE" with
        | none => ⟨200, some (emptyFinance pid)⟩
        | some fit => ⟨200, some (format_finance_data t fit)⟩

/-- The loan item `add_property_loan` builds (no float conversion is applied
by the source before `put_item`). -/
def buildLoanItemNew (pid loanId : String) (data : Item) (now : String) : Item :=
  [("pk", vStr ("PROPERTY#" ++ pid)),
   ("sk", vStr ("LOAN#" ++ loanId)),
   ("property_id", vStr pid),
   ("loan_id", vStr loanId),
   ("lender", dget data "lender" (vStr "")),
   ("loan_type", dget data "loanType" (vStr "")),
   ("original_amount", dget data "originalAmount" (vInt 0)),
   ("current_balance", dget data "currentBalance" (vInt 0)),
   ("interest_rate", dget data "interestRate" (vInt 0)),
   ("term_years", dget data "termYears" (vInt 30)),
   ("monthly_payment", dget data "monthlyPayment" (vInt 0)),
   ("start_date", dget data "startDate" (vStr "")),
   ("maturity_date", dget data "maturityDate" (vStr "")),
   ("is_active", dget data "isActive" (vBool true)),
   ("created_at", vStr now),
   ("updated_at", vStr now)]

/-- The loan item `update_property_loan` builds (identical but without
`created_at`). -/
def buildLoanItemUpd (pid loanId : String) (data : Item) (now : String) : Item :=
  [("pk", vStr ("PROPERTY#" ++ pid)),
   ("sk", vStr ("LOAN#" ++ loanId)),
   ("property_id", vStr pid),
   ("loan_id", vStr loanId),
   ("lender", dget data "lender" (vStr "")),
   ("loan_type", dget data "loanType" (vStr "")),
   ("original_amount", dget data "originalAmount" (vInt 0)),
   ("current_balance", dget data "currentBalance" (vInt 0)),
   ("interest_rate", dget data "interestRate" (vInt 0)),
   ("term_years", dget data "termYears" (vInt 30)),
   ("monthly_payment", dget data "monthlyPayment" (vInt 0)),
   ("start_date", dget data "startDate" (vStr "")),
   ("maturity_date", dget data "maturityDate" (vStr "")),
   ("is_active", dget data "isActive" (vBool true)),
   ("updated_at", vStr now)]

structure LoanResult where
  status : Nat
  table : Table
  loan : Option Item
deriving Repr

/-- `add_property_loan(property_id, event, headers)`: the source parses the
body and writes the loan item immediately — it never calls
`get_authenticated_user_id` and never loads the parent property, so no
caller identity or ownership information enters the computation. -/
def add_property_loan (t : Table) (pid : String) (body : Option Item)
    (loanId now : String) : LoanResult :=
  match body with
  | none => ⟨500, t, none⟩
  | some data =>
    let item := buildLoanItemNew pid loanId data now
    ⟨201, putItem t item, some (format_loan_data item)⟩

/-- `update_property_loan`: likewise a bare `put_item` with no
authentication or ownership check. -/
def update_property_loan (t : Table) (pid loanId : String) (body : Option Item)
    (now : String) : LoanResult :=
  match body with
  | none => ⟨500, t, none⟩
  | some data =>
    let item := buildLoanItemUpd pid loanId data now
    ⟨200, putItem t item, some (format_loan_data item)⟩

/-- `delete_property_loan(property_id, loan_id, headers)`: a bare
`delete_item` with no authentication or ownership check. -/
def delete_property_loan (t : Table) (pid loanId : String) : Nat × Table :=
  (200, deleteItem t ("PROPERTY#" ++ pid) ("LOAN#" ++ loanId))

/-! ### Claim-support definitions -/

/-- `not data.get('title')` restricted to the shapes the claims speak about:
the title is the empty string or the key is absent. -/
def emptyOrAbsentTitle (data : Item) : Bool :=
  match dfind data "title" with
  | none => true
  | some (vStr s) => s == ""
  | some _ => false

/-- The create payload carries a negative numeric price. -/
def negPrice (data : Item) : Bool :=
  match dget data "price" (vInt 0) with
  | vInt n => decide (n < 0)
  | vFloat q => decide (q < 0)
  | vDec q => decide (q < 0)
  | _ => false

/-- Wire-schema fields holding strings (the create handler reads these
camelCase names; `country` defaults to `"US"`). -/
def wireStringKeys : List String :=
  ["title", "description", "propertyType", "garageType", "streetAddress",
   "city", "county", "state", "zipCode", "country"]

/-- Wire-schema fields holding integers (the formatter applies `int(...)`
to them). -/
def wireIntKeys : List String := ["bedrooms", "garageCars", "squareFeet"]

/-- Wire-schema fields holding numbers (int or float). -/
def wireNumKeys : List String := ["price", "rent", "bathrooms"]

def isStrV : PyVal → Bool
  | vStr _ => true
  | _ => false

def isIntV : PyVal → Bool
  | vInt _ => true
  | _ => false

def isNumV : PyVal → Bool
  | vInt _ => true
  | vFloat _ => true
  | _ => false

def wireFieldOK (k : String) (v : PyVal) : Bool :=
  if wireStringKeys.contains k then isStrV v
  else if wireIntKeys.contains k then isIntV v
  else if wireNumKeys.contains k then isNumV v
  else false

/-- A valid wire-schema property payload: every field is a wire-schema field
of its declared shape, and the aliases `price`/`rent` (which feed the same
stored attribute) are not both present. -/
def validWirePayload (data : Item) : Bool :=
  data.all (fun kv => wireFieldOK kv.1 kv.2) &&
  !((dfind data "price").isSome && (dfind data "rent").isSome)

/-- The storage-then-wire round trip of a create payload: the stored item as
`create_property` builds it, re-formatted by `format_property`. -/
def roundTrip (owner pid now : String) (data : Item) : WireProperty :=
  format_property (convertItemFloats (buildPropertyItem owner pid data now))

/-- Where each wire payload field reappears in the formatted output
(`price`/`rent` both surface as `rent`; the address fields inside the
structured `address` object). -/
def wireOut (w : WireProperty) (k : String) : Option PyVal :=
  if k == "title" then some w.title
  else if k == "description" then some w.description
  else if k == "propertyType" then some w.propertyType
  else if k == "price" then some w.rent
  else if k == "rent" then some w.rent
  else if k == "bedrooms" then some w.bedrooms
  else if k == "bathrooms" then some w.bathrooms
  else if k == "squareFeet" then some w.squareFeet
  else if k == "garageType" then some w.garageType
  else if k == "garageCars" then some w.garageCars
  else if k == "streetAddress" then some w.addrStreet
  else if k == "city" then some w.addrCity
  else if k == "county" then some w.addrCounty
  else if k == "state" then some w.addrState
  else if k == "zipCode" then some w.addrZip
  else if k == "country" then some w.addrCountry
  else none

/-- One payload field survives the round trip (vacuously true when absent). -/
def roundTripsAt (owner pid now : String) (data : Item) (k : String) : Bool :=
  match dfind data k with
  | none => true
  | some v =>
    match wireOut (roundTrip owner pid now data) k with
    | some w => valEq w v
    | none => false

/-- Every field of the payload survives the round trip. -/
def roundTrips (owner pid now : String) (data : Item) : Bool :=
  (data.map Prod.fst).all (roundTripsAt owner pid now data)

/-- The payload's `squareFeet`, when present, is not the (falsy) integer 0. -/
def sqftNonzero (data : Item) : Bool :=
  match dfind data "squareFeet" with
  | some (vInt 0) => false
  | _ => true

/-- A payload on which the round trip loses a field: `squareFeet` 0 is stored
as 0 but formatted back as `None`. -/
def c5Payload : Item := [("title", vStr "Unit A"), ("squareFeet", vInt 0)]

/-! ### Concrete fixtures -/

/-- A stored property owned by `other@example.com`. -/
def exOther : Item :=
  [("pk", vStr "PROPERTY#p1"), ("sk", vStr "METADATA"), ("id", vStr "p1"),
   ("owner_id", vStr "other@example.com"), ("title", vStr "Test Property")]

def exTblOther : Table := [exOther]

/-- A loan stored under `exOther`'s partition. -/
def exLoan : Item :=
  [("pk", vStr "PROPERTY#p1"), ("sk", vStr "LOAN#l0"), ("property_id", vStr "p1"),
   ("loan_id", vStr "l0"), ("lender", vStr "Bank")]

def exTblOtherLoan : Table := [exOther, exLoan]

/-- A stored property owned by `test@example.com`. -/
def exMine : Item :=
  [("pk", vStr "PROPERTY#p2"), ("sk", vStr "METADATA"), ("id", vStr "p2"),
   ("owner_id", vStr "test@example.com"), ("title", vStr "Mine")]

def exTblMine : Table := [exMine]

/-- A table holding both owners' properties. -/
def exTblTwoOwners : Table := [exMine, exOther]

/-- A stored property owned by `alice`. -/
def exAlice : Item :=
  [("pk", vStr "PROPERTY#p1"), ("sk", vStr "METADATA"), ("id", vStr "p1"),
   ("owner_id", vStr "alice")]

def exTblAlice : Table := [exAlice]

/-- A witness payload exercising strings, a float price, and a nonzero
`squareFeet`. -/
def c5GoodPayload : Item :=
  [("title", vStr "Unit A"), ("price", vFloat 1200), ("bathrooms", vFloat (5/2)),
   ("squareFeet", vInt 800), ("city", vStr "Austin")]

/-! ### Dictionary and store lemmas -/

theorem dfind_cons_pos (a : String × PyVal) (tl : Item) (k : String)
    (h : (a.1 == k) = true) : dfind (a :: tl) k = some a.2 := by
  unfold dfind
  rw [List.find?_cons]
  simp [h]

theorem dfind_cons_neg (a : String × PyVal) (tl : Item) (k : String)
    (h : (a.1 == k) = false) : dfind (a :: tl) k = dfind tl k := by
  unfold dfind
  rw [List.find?_cons]
  simp [h]

theorem dfind_mapset_ne (d : Item) (k k' : String) (v : PyVal) (h : (k == k') = false) :
    dfind (d.map (fun kv => if kv.1 == k then (k, v) else kv)) k' = dfind d k' := by
  induction d with
  | nil => rfl
  | cons a tl ih =>
    rw [List.map_cons]
    by_cases ha : (a.1 == k)
    · have hak : a.1 = k := by simpa using ha
      rw [if_pos ha, dfind_cons_neg _ _ _ (by simpa using h),
          dfind_cons_neg _ _ _ (by rw [hak]; exact h)]
      exact ih
    · rw [if_neg ha]
      by_cases ha' : (a.1 == k')
      · rw [dfind_cons_pos _ _ _ ha', dfind_cons_pos _ _ _ ha']
      · rw [dfind_cons_neg _ _ _ (by simpa using ha'),
            dfind_cons_neg _ _ _ (by simpa using ha')]
        exact ih

theorem dfind_append_single_ne (d : Item) (k k' : String) (v : PyVal)
    (h : (k == k') = false) :
    dfind (d ++ [(k, v)]) k' = dfind d k' := by
  induction d with
  | nil =>
    rw [List.nil_append, dfind_cons_neg _ _ _ (by simpa using h)]
  | cons a tl ih =>
    rw [List.cons_append]
    by_cases ha : (a.1 == k')
    · rw [dfind_cons_pos _ _ _ ha, dfind_cons_pos _ _ _ ha]
    · rw [dfind_cons_neg _ _ _ (by simpa using ha),
          dfind_cons_neg _ _ _ (by simpa using ha)]
      exact ih

/-- Setting key `k` does not change the lookup of a different key `k'`. -/
theorem dfind_dset_ne (d : Item) (k k' : String) (v : PyVal) (h : k' ≠ k) :
    dfind (dset d k v) k' = dfind d k' := by
  have hb : (k == k') = false := by
    simp only [beq_eq_false_iff_ne, ne_eq]
    exact fun e => h e.symm
  unfold dset
  by_cases hp : (d.find? (fun kv => kv.1 == k)).isSome
  · simp only [hp, if_true]
    exact dfind_mapset_ne d k k' v hb
  · simp only [hp, Bool.false_eq_true, if_false]
    exact dfind_append_single_ne d k k' v hb

/-- Removing key `k` does not change the lookup of a different key `k'`. -/
theorem dfind_dremove_ne (d : Item) (k k' : String) (h : k' ≠ k) :
    dfind (dremove d k) k' = dfind d k' := by
  induction d with
  | nil => rfl
  | cons a tl ih =>
    unfold dremove at ih ⊢
    rw [List.filter_cons]
    by_cases ha : (a.1 == k)
    · have hak : a.1 = k := by simpa using ha
      have hne : (a.1 != k) = false := by simp [hak]
      rw [if_neg (by simp [hne]), ih,
          dfind_cons_neg _ _ _ (by simp [hak]; exact fun e => h e.symm)]
    · have hne : (a.1 != k) = true := by simpa [bne] using ha
      rw [if_pos (by simp [hne])]
      by_cases ha' : (a.1 == k')
      · rw [dfind_cons_pos _ _ _ ha', dfind_cons_pos _ _ _ ha']
      · rw [dfind_cons_neg _ _ _ (by simpa using ha'),
            dfind_cons_neg _ _ _ (by simpa using ha')]
        exact ih

/-- Renaming `kOld` to `kNew` does not change the lookup of a key that is
neither. -/
theorem dfind_renameKey_ne (d : Item) (kOld kNew k' : String)
    (h1 : k' ≠ kOld) (h2 : k' ≠ kNew) :
    dfind (renameKey d kOld kNew) k' = dfind d k' := by
  unfold renameKey
  cases hf : dfind d kOld with
  | none => rfl
  | some v => rw [dfind_dset_ne _ _ _ _ h2, dfind_dremove_ne _ _ _ h1]

/-- Float-to-decimal conversion acts pointwise on lookups. -/
theorem dfind_convertItemFloats (d : Item) (k : String) :
    dfind (convertItemFloats d) k = (dfind d k).map convertFloat := by
  induction d with
  | nil => rfl
  | cons a tl ih =>
    unfold convertItemFloats at ih ⊢
    rw [List.map_cons]
    by_cases ha : (a.1 == k)
    · rw [dfind_cons_pos (a.1, convertFloat a.2) _ _ (by simpa using ha),
          dfind_cons_pos _ _ _ ha]
      rfl
    · rw [dfind_cons_neg (a.1, convertFloat a.2) _ _ (by simpa using ha),
          dfind_cons_neg _ _ _ (by simpa using ha)]
      exact ih

/-- A key that `dfind` misses heads no pair of the dict. -/
theorem dfind_none_keys (d : Item) (k : String) (h : dfind d k = none) :
    ∀ kv ∈ d, (kv.1 == k) = false := by
  intro kv hm
  simp only [dfind, Option.map_eq_none'] at h
  have := List.find?_eq_none.mp h kv hm
  simpa using this

/-- The update expression never writes `id`. -/
theorem dfind_applyPropertyUpdate_id (data : Item) : ∀ old : Item,
    dfind (applyPropertyUpdate old data) "id" = dfind old "id" := by
  induction data with
  | nil => intro old; rfl
  | cons a tl ih =>
    intro old
    unfold applyPropertyUpdate at ih ⊢
    rw [List.foldl_cons]
    by_cases ha : (a.1 == "id")
    · rw [if_pos ha]
      exact ih old
    · rw [if_neg ha, ih (dset old a.1 a.2)]
      exact dfind_dset_ne old a.1 "id" a.2 (Ne.symm (by simpa using ha))

/-- The update expression leaves keys absent from the body unchanged. -/
theorem dfind_applyPropertyUpdate_not_mem (data : Item) (k : String) : ∀ old : Item,
    (∀ kv ∈ data, (kv.1 == k) = false) →
    dfind (applyPropertyUpdate old data) k = dfind old k := by
  induction data with
  | nil => intro old _; rfl
  | cons a tl ih =>
    intro old hd
    unfold applyPropertyUpdate at ih ⊢
    rw [List.foldl_cons]
    by_cases ha : (a.1 == "id")
    · rw [if_pos ha]
      exact ih old fun kv hm => hd kv (List.mem_cons_of_mem _ hm)
    · rw [if_neg ha, ih (dset old a.1 a.2) fun kv hm => hd kv (List.mem_cons_of_mem _ hm)]
      have hk := hd a (List.mem_cons_self a tl)
      exact dfind_dset_ne old a.1 k a.2 (Ne.symm (by simpa using hk))

theorem find?_filter_not_append {α : Type} (p : α → Bool) (t : List α) (a : α)
    (ha : p a = true) :
    List.find? p ((t.filter (fun x => !p x)) ++ [a]) = some a := by
  induction t with
  | nil => simp [List.find?_cons, ha]
  | cons b tl ih =>
    by_cases hb : p b <;> simp [List.filter_cons, List.find?_cons, hb, ha, ih]

/-- After a `put_item`, `get_item` at the item's key returns the item. -/
theorem getItem_putItem (t : Table) (it : Item) (pk sk : String)
    (hpk : dfind it "pk" = some (vStr pk)) (hsk : dfind it "sk" = some (vStr sk)) :
    getItem (putItem t it) pk sk = some it := by
  unfold getItem putItem sameKey
  simp only [hpk, hsk]
  exact find?_filter_not_append _ t it (by simp [hpk, hsk])

/-- After a `delete_item`, `get_item` at the deleted key misses. -/
theorem getItem_deleteItem (t : Table) (pk sk : String) :
    getItem (deleteItem t pk sk) pk sk = none := by
  unfold getItem deleteItem
  refine List.find?_eq_none.mpr ?_
  intro x hx
  have h2 := (List.mem_filter.mp hx).2
  rw [Bool.not_eq_true'] at h2
  simp [h2]

/-- A found item carries the queried key attributes. -/
theorem getItem_keys (t : Table) (pk sk : String) (it : Item)
    (h : getItem t pk sk = some it) :
    dfind it "pk" = some (vStr pk) ∧ dfind it "sk" = some (vStr sk) := by
  unfold getItem at h
  have := List.find?_some h
  simpa using this

/-! ### Claims -/

/-- C1: the claim holds for `get_property` and `update_property` (existence
checked before ownership: 404 for a missing id regardless of owner, 403 for a
foreign owner), but `delete_property` violates it: the source deletes
unconditionally and returns 200 — for a missing id (claim and the repo's own
`TestDeleteProperty` tests: 404) and for a record owned by another user
(claim and tests: 403, no deletion). Evaluated here at those failing
inputs. -/
theorem delete_property_skips_all_checks :
    get_property (some "test\x40example.com") ([] : Table) "p1" = ⟨404, none⟩ ∧
    get_property (some "test\x40example.com") exTblOther "p1" = ⟨403, none⟩ ∧
    update_property (some "test\x40example.com") ([] : Table) "p1" (some []) "T"
      = ⟨404, [], none⟩ ∧
    (update_property (some "test\x40example.com") exTblOther "p1" (some []) "T").status
      = 403 ∧
    (delete_property ([] : Table) "missing").1 = 200 ∧
    (delete_property exTblOther "p1").1 = 200 ∧
    getItem (delete_property exTblOther "p1").2 "PROPERTY#p1" "METADATA" = none :=
  ⟨rfl, rfl, rfl, rfl, rfl, rfl, rfl⟩

/-- C2: the loan handlers never load the parent property and never compare
any `owner_id` with a caller (they receive no caller identity at all): on a
table whose only property belongs to `other@example.com`, add/update/delete
of a loan all succeed and modify the store. -/
theorem loan_handlers_skip_ownership :
    (add_property_loan exTblOther "p1" (some [("lender", vStr "B")]) "l1" "T").status
      = 201 ∧
    getItem (add_property_loan exTblOther "p1" (some [("lender", vStr "B")]) "l1" "T").table
        "PROPERTY#p1" "LOAN#l1"
      = some (buildLoanItemNew "p1" "l1" [("lender", vStr "B")] "T") ∧
    (update_property_loan exTblOtherLoan "p1" "l0" (some [("lender", vStr "C")]) "T").status
      = 200 ∧
    getItem (update_property_loan exTblOtherLoan "p1" "l0" (some [("lender", vStr "C")]) "T").table
        "PROPERTY#p1" "LOAN#l0"
      = some (buildLoanItemUpd "p1" "l0" [("lender", vStr "C")] "T") ∧
    (delete_property_loan exTblOtherLoan "p1" "l0").1 = 200 ∧
    getItem exTblOtherLoan "PROPERTY#p1" "LOAN#l0" = some exLoan ∧
    getItem (delete_property_loan exTblOtherLoan "p1" "l0").2 "PROPERTY#p1" "LOAN#l0"
      = none :=
  ⟨rfl, rfl, rfl, rfl, rfl, rfl, rfl⟩

/-- C3: most handlers do return 401 before touching the store when identity
resolution fails, but `delete_property` (which receives no event and cannot
consult credentials) and the loan handlers (which never call
`get_authenticated_user_id`) access and mutate the store on credential-less
requests instead of returning 401. -/
theorem store_access_without_credentials :
    list_properties none exTblMine true = ⟨401, []⟩ ∧
    create_property none exTblMine (some [("title", vStr "A")]) "p9" "T"
      = ⟨401, exTblMine, none⟩ ∧
    get_property none exTblMine "p2" = ⟨401, none⟩ ∧
    update_property none exTblMine "p2" (some []) "T" = ⟨401, exTblMine, none⟩ ∧
    get_property_finance none exTblMine "p2" = ⟨401, none⟩ ∧
    (delete_property exTblMine "p2").1 = 200 ∧
    getItem exTblMine "PROPERTY#p2" "METADATA" = some exMine ∧
    getItem (delete_property exTblMine "p2").2 "PROPERTY#p2" "METADATA" = none ∧
    (add_property_loan exTblMine "p2" (some []) "l1" "T").status = 201 ∧
    (getItem (add_property_loan exTblMine "p2" (some []) "l1" "T").table
        "PROPERTY#p2" "LOAN#l1").isSome = true :=
  ⟨rfl, rfl, rfl, rfl, rfl, rfl, rfl, rfl, rfl, rfl⟩

/-- C4 counterexample: the owner of `p1` (`alice`) sends an update body
containing `owner_id`; the update succeeds and the stored record's
`owner_id` becomes `mallory` — `owner_id` is not immutable. -/
theorem update_property_changes_owner_id :
    (update_property (some "alice") exTblAlice "p1"
        (some [("owner_id", vStr "mallory")]) "T").status = 200 ∧
    (getItem (update_property (some "alice") exTblAlice "p1"
          (some [("owner_id", vStr "mallory")]) "T").table
        "PROPERTY#p1" "METADATA").map (fun nit => dfind nit "owner_id")
      = some (some (vStr "mallory")) :=
  ⟨rfl, rfl⟩

/-- C6: a create payload with an empty/absent title or a negative numeric
price is rejected with 400 and the table is untouched. -/
theorem create_property_rejects_invalid (o : String) (t : Table) (data : Item)
    (pid now : String)
    (h : emptyOrAbsentTitle data = true ∨ negPrice data = true) :
    (create_property (some o) t (some data) pid now).status = 400 ∧
    (create_property (some o) t (some data) pid now).table = t := by
  rcases h with h | h
  · have ht : pyTruthy (dget data "title" vNone) = false := by
      unfold emptyOrAbsentTitle at h
      unfold dget
      cases hf : dfind data "title" with
      | none => rfl
      | some v =>
        rw [hf] at h
        cases v with
        | vStr s =>
          have hs : s = "" := by simpa using h
          simp [pyTruthy, hs]
        | vInt n => cases h
        | vFloat q => cases h
        | vDec q => cases h
        | vBool b => cases h
        | vNone => cases h
    simp [create_property, ht]
  · by_cases ht : pyTruthy (dget data "title" vNone)
    · unfold negPrice at h
      simp only [create_property, ht, Bool.not_true, Bool.false_eq_true, if_false]
      cases hp : dget data "price" (vInt 0) with
      | vInt n =>
        rw [hp] at h
        simp only [decide_eq_true_eq] at h
        simp [pyLtZero, h]
      | vFloat q =>
        rw [hp] at h
        simp only [decide_eq_true_eq] at h
        simp [pyLtZero, h]
      | vDec q =>
        rw [hp] at h
        simp only [decide_eq_true_eq] at h
        simp [pyLtZero, h]
      | vStr s => rw [hp] at h; cases h
      | vBool b => rw [hp] at h; cases h
      | vNone => rw [hp] at h; cases h
    · have ht2 : pyTruthy (dget data "title" vNone) = false := by
        simpa using ht
      simp [create_property, ht2]

theorem create_property_rejects_invalid_witness :
    (emptyOrAbsentTitle ([] : Item) = true ∨ negPrice ([] : Item) = true) ∧
    (create_property (some "u1") exTblMine (some []) "p9" "T").status = 400 ∧
    (create_property (some "u1") exTblMine (some []) "p9" "T").table = exTblMine :=
  ⟨Or.inl rfl, create_property_rejects_invalid "u1" exTblMine [] "p9" "T" (Or.inl rfl)⟩

/-- C8: for an existing property owned by the caller with no FINANCE record,
`get_property_finance` returns 200 with the empty finance structure (null
ownership type/status, empty purchase info, empty loan list) rather than
404. -/
theorem get_finance_missing_returns_empty (owner pid : String) (t : Table) (it : Item)
    (hmeta : getItem t ("PROPERTY#" ++ pid) "METADATA" = some it)
    (howner : dget it "owner_id" vNone = vStr owner)
    (hfin : getItem t ("PROPERTY#" ++ pid) "FINANCE" = none) :
    get_property_finance (some owner) t pid = ⟨200, some (emptyFinance pid)⟩ := by
  simp only [get_property_finance, hmeta, hfin, howner]
  simp

theorem get_finance_missing_returns_empty_witness :
    getItem exTblMine ("PROPERTY#" ++ "p2") "METADATA" = some exMine ∧
    dget exMine "owner_id" vNone = vStr "test\x40example.com" ∧
    getItem exTblMine ("PROPERTY#" ++ "p2") "FINANCE" = none ∧
    get_property_finance (some "test\x40example.com") exTblMine "p2"
      = ⟨200, some (emptyFinance "p2")⟩ :=
  ⟨rfl, rfl, rfl,
    get_finance_missing_returns_empty "test\x40example.com" "p2" exTblMine exMine
      rfl rfl rfl⟩

/-- The preprocessed update body agrees with the raw body (modulo the decimal
pass) on keys the preprocessing does not touch. -/
theorem dfind_preprocessUpdateBody_ne (data : Item) (now : String) (k : String)
    (h1 : k ≠ "updated_at") (h2 : k ≠ "streetAddress") (h3 : k ≠ "street_address")
    (h4 : k ≠ "zipCode") (h5 : k ≠ "zip_code") :
    dfind (preprocessUpdateBody data now) k = (dfind data k).map convertFloat := by
  unfold preprocessUpdateBody
  rw [dfind_convertItemFloats, dfind_renameKey_ne _ _ _ _ h4 h5,
      dfind_renameKey_ne _ _ _ _ h2 h3, dfind_dset_ne _ _ _ _ h1]

/-- On the success path (caller authenticated, record present and owned,
body parsed, no key attribute named), `update_property` overwrites the stored
item with the update expression applied and returns it. -/
theorem update_property_success (owner pid now : String) (t : Table) (it data : Item)
    (hmeta : getItem t ("PROPERTY#" ++ pid) "METADATA" = some it)
    (howner : dget it "owner_id" vNone = vStr owner)
    (hpk : dfind data "pk" = none) (hsk : dfind data "sk" = none) :
    update_property (some owner) t pid (some data) now =
      ⟨200, putItem t (applyPropertyUpdate it (preprocessUpdateBody data now)),
        some (format_property (applyPropertyUpdate it (preprocessUpdateBody data now)))⟩ := by
  have hg1 : dfind (preprocessUpdateBody data now) "pk" = none := by
    rw [dfind_preprocessUpdateBody_ne data now "pk" (by decide) (by decide) (by decide)
        (by decide) (by decide), hpk]
    rfl
  have hg2 : dfind (preprocessUpdateBody data now) "sk" = none := by
    rw [dfind_preprocessUpdateBody_ne data now "sk" (by decide) (by decide) (by decide)
        (by decide) (by decide), hsk]
    rfl
  simp [update_property, hmeta, howner, hg1, hg2]

/-- C9: an update on an existing owned property leaves the stored `id`
unchanged — the update expression skips the body's `id` field — even when the
body contains an `id`. -/
theorem update_property_preserves_id (owner pid now : String) (t : Table)
    (it data : Item)
    (hmeta : getItem t ("PROPERTY#" ++ pid) "METADATA" = some it)
    (howner : dget it "owner_id" vNone = vStr owner)
    (hpk : dfind data "pk" = none) (hsk : dfind data "sk" = none) :
    (update_property (some owner) t pid (some data) now).status = 200 ∧
    ∃ nit, getItem (update_property (some owner) t pid (some data) now).table
        ("PROPERTY#" ++ pid) "METADATA" = some nit ∧
      dfind nit "id" = dfind it "id" := by
  rw [update_property_success owner pid now t it data hmeta howner hpk hsk]
  have hk := getItem_keys t _ _ it hmeta
  have hg1 : dfind (preprocessUpdateBody data now) "pk" = none := by
    rw [dfind_preprocessUpdateBody_ne data now "pk" (by decide) (by decide) (by decide)
        (by decide) (by decide), hpk]
    rfl
  have hg2 : dfind (preprocessUpdateBody data now) "sk" = none := by
    rw [dfind_preprocessUpdateBody_ne data now "sk" (by decide) (by decide) (by decide)
        (by decide) (by decide), hsk]
    rfl
  have hpk2 : dfind (applyPropertyUpdate it (preprocessUpdateBody data now)) "pk"
      = some (vStr ("PROPERTY#" ++ pid)) := by
    rw [dfind_applyPropertyUpdate_not_mem _ _ it (dfind_none_keys _ _ hg1), hk.1]
  have hsk2 : dfind (applyPropertyUpdate it (preprocessUpdateBody data now)) "sk"
      = some (vStr "METADATA") := by
    rw [dfind_applyPropertyUpdate_not_mem _ _ it (dfind_none_keys _ _ hg2), hk.2]
  exact ⟨rfl, applyPropertyUpdate it (preprocessUpdateBody data now),
    getItem_putItem t _ _ _ hpk2 hsk2, dfind_applyPropertyUpdate_id _ it⟩

theorem update_property_preserves_id_witness :
    getItem exTblAlice ("PROPERTY#" ++ "p1") "METADATA" = some exAlice ∧
    dget exAlice "owner_id" vNone = vStr "alice" ∧
    dfind [("id", vStr "evil"), ("title", vStr "B")] "pk" = none ∧
    dfind [("id", vStr "evil"), ("title", vStr "B")] "sk" = none ∧
    ((update_property (some "alice") exTblAlice "p1"
        (some [("id", vStr "evil"), ("title", vStr "B")]) "T").status = 200 ∧
      ∃ nit, getItem (update_property (some "alice") exTblAlice "p1"
            (some [("id", vStr "evil"), ("title", vStr "B")]) "T").table
          ("PROPERTY#" ++ "p1") "METADATA" = some nit ∧
        dfind nit "id" = dfind exAlice "id") :=
  ⟨rfl, rfl, rfl, rfl,
    update_property_preserves_id "alice" "p1" "T" exTblAlice exAlice
      [("id", vStr "evil"), ("title", vStr "B")] rfl rfl rfl rfl⟩

/-- C4 amended: `owner_id` is preserved by every update whose body does not
itself contain an `owner_id` field; only `id` is unconditionally protected,
so a body containing `owner_id` does overwrite it (see the
counterexample). -/
theorem update_property_preserves_owner_id_when_absent (owner pid now : String)
    (t : Table) (it data : Item)
    (hmeta : getItem t ("PROPERTY#" ++ pid) "METADATA" = some it)
    (howner : dget it "owner_id" vNone = vStr owner)
    (hpk : dfind data "pk" = none) (hsk : dfind data "sk" = none)
    (hoid : dfind data "owner_id" = none) :
    (update_property (some owner) t pid (some data) now).status = 200 ∧
    ∃ nit, getItem (update_property (some owner) t pid (some data) now).table
        ("PROPERTY#" ++ pid) "METADATA" = some nit ∧
      dfind nit "owner_id" = dfind it "owner_id" := by
  rw [update_property_success owner pid now t it data hmeta howner hpk hsk]
  have hk := getItem_keys t _ _ it hmeta
  have hg1 : dfind (preprocessUpdateBody data now) "pk" = none := by
    rw [dfind_preprocessUpdateBody_ne data now "pk" (by decide) (by decide) (by decide)
        (by decide) (by decide), hpk]
    rfl
  have hg2 : dfind (preprocessUpdateBody data now) "sk" = none := by
    rw [dfind_preprocessUpdateBody_ne data now "sk" (by decide) (by decide) (by decide)
        (by decide) (by decide), hsk]
    rfl
  have hg3 : dfind (preprocessUpdateBody data now) "owner_id" = none := by
    rw [dfind_preprocessUpdateBody_ne data now "owner_id" (by decide) (by decide)
        (by decide) (by decide) (by decide), hoid]
    rfl
  have hpk2 : dfind (applyPropertyUpdate it (preprocessUpdateBody data now)) "pk"
      = some (vStr ("PROPERTY#" ++ pid)) := by
    rw [dfind_applyPropertyUpdate_not_mem _ _ it (dfind_none_keys _ _ hg1), hk.1]
  have hsk2 : dfind (applyPropertyUpdate it (preprocessUpdateBody data now)) "sk"
      = some (vStr "METADATA") := by
    rw [dfind_applyPropertyUpdate_not_mem _ _ it (dfind_none_keys _ _ hg2), hk.2]
  exact ⟨rfl, applyPropertyUpdate it (preprocessUpdateBody data now),
    getItem_putItem t _ _ _ hpk2 hsk2,
    dfind_applyPropertyUpdate_not_mem _ _ it (dfind_none_keys _ _ hg3)⟩

theorem update_property_preserves_owner_id_when_absent_witness :
    getItem exTblAlice ("PROPERTY#" ++ "p1") "METADATA" = some exAlice ∧
    dget exAlice "owner_id" vNone = vStr "alice" ∧
    dfind [("title", vStr "B")] "pk" = none ∧
    dfind [("title", vStr "B")] "sk" = none ∧
    dfind [("title", vStr "B")] "owner_id" = none ∧
    ((update_property (some "alice") exTblAlice "p1"
        (some [("title", vStr "B")]) "T").status = 200 ∧
      ∃ nit, getItem (update_property (some "alice") exTblAlice "p1"
            (some [("title", vStr "B")]) "T").table
          ("PROPERTY#" ++ "p1") "METADATA" = some nit ∧
        dfind nit "owner_id" = dfind exAlice "owner_id") :=
  ⟨rfl, rfl, rfl, rfl, rfl,
    update_property_preserves_owner_id_when_absent "alice" "p1" "T" exTblAlice exAlice
      [("title", vStr "B")] rfl rfl rfl rfl rfl⟩

/-- `valEq` ignores the float-to-decimal pass. -/
theorem valEq_convertFloat (v : PyVal) : valEq (convertFloat v) v = true := by
  cases v <;> simp [valEq, convertFloat, asRat]

/-- C10: with no `price` field in the payload, the stored `price` is the
payload's `rent` value when present and 0 otherwise. -/
theorem create_property_rent_alias (o : String) (t : Table) (data : Item)
    (pid now : String)
    (htitle : pyTruthy (dget data "title" vNone) = true)
    (hprice : dfind data "price" = none) :
    (create_property (some o) t (some data) pid now).status = 201 ∧
    ∃ stored, getItem (create_property (some o) t (some data) pid now).table
        ("PROPERTY#" ++ pid) "METADATA" = some stored ∧
      valEq (dget stored "price" (vInt 0)) (dget data "rent" (vInt 0)) = true := by
  have hp : dget data "price" (vInt 0) = vInt 0 := by simp [dget, hprice]
  have hpr : dget data "price" (dget data "rent" (vInt 0)) = dget data "rent" (vInt 0) := by
    simp [dget, hprice]
  simp only [create_property, htitle, Bool.not_true, Bool.false_eq_true, if_false, hp,
    pyLtZero]
  refine ⟨by simp, convertItemFloats (buildPropertyItem o pid data now), ?_, ?_⟩
  · simp only [show ((vInt 0 == vNone) = false) from rfl, Bool.false_eq_true, if_false,
      show decide ((0 : Int) < 0) = false from rfl]
    exact getItem_putItem t _ _ _ rfl rfl
  · have hfind : dget (convertItemFloats (buildPropertyItem o pid data now)) "price" (vInt 0)
        = convertFloat (dget data "price" (dget data "rent" (vInt 0))) := rfl
    rw [hfind, hpr]
    exact valEq_convertFloat _

theorem create_property_rent_alias_witness :
    pyTruthy (dget [("title", vStr "A"), ("rent", vFloat 1500)] "title" vNone) = true ∧
    dfind [("title", vStr "A"), ("rent", vFloat 1500)] "price" = none ∧
    ((create_property (some "u1") ([] : Table)
        (some [("title", vStr "A"), ("rent", vFloat 1500)]) "p7" "T").status = 201 ∧
      ∃ stored, getItem (create_property (some "u1") ([] : Table)
            (some [("title", vStr "A"), ("rent", vFloat 1500)]) "p7" "T").table
          ("PROPERTY#" ++ "p7") "METADATA" = some stored ∧
        valEq (dget stored "price" (vInt 0))
          (dget [("title", vStr "A"), ("rent", vFloat 1500)] "rent" (vInt 0)) = true) :=
  ⟨rfl, rfl,
    create_property_rent_alias "u1" [] [("title", vStr "A"), ("rent", vFloat 1500)]
      "p7" "T" rfl rfl⟩

/-- C7: with the secondary-index query failing (`gsiOk = false`),
`list_properties` scans the whole table and still returns exactly the
caller's property records — every stored record with partition key prefixed
`PROPERTY#`, sort key `METADATA` and the caller's `owner_id` is returned, and
everything returned comes from such a record (so no other caller's record is
ever returned). -/
theorem list_properties_scan_fallback_correct (owner : String) (t : Table) :
    (list_properties (some owner) t false).status = 200 ∧
    (∀ it, it ∈ t → ownedPropertyItem owner it = true →
      format_property it ∈ (list_properties (some owner) t false).props) ∧
    (∀ w, w ∈ (list_properties (some owner) t false).props →
      ∃ it, it ∈ t ∧ ownedPropertyItem owner it = true ∧ w = format_property it ∧
        dget it "owner_id" vNone = vStr owner) := by
  refine ⟨rfl, ?_, ?_⟩
  · intro it hm hp
    simp only [list_properties, Bool.false_eq_true, if_false]
    exact List.mem_map_of_mem _ (List.mem_filter.mpr ⟨hm, hp⟩)
  · intro w hw
    simp only [list_properties, Bool.false_eq_true, if_false] at hw
    rcases List.mem_map.mp hw with ⟨it, hit, rfl⟩
    have h2 := List.mem_filter.mp hit
    refine ⟨it, h2.1, h2.2, rfl, ?_⟩
    have h3 := h2.2
    simp only [ownedPropertyItem, Bool.and_eq_true, beq_iff_eq] at h3
    exact h3.2

theorem list_properties_scan_fallback_correct_witness :
    format_property exMine
      ∈ (list_properties (some "test\x40example.com") exTblTwoOwners false).props ∧
    ∀ w ∈ (list_properties (some "test\x40example.com") exTblTwoOwners false).props,
      ∃ it, it ∈ exTblTwoOwners ∧ ownedPropertyItem "test\x40example.com" it = true ∧
        w = format_property it ∧ dget it "owner_id" vNone = vStr "test\x40example.com" := by
  have h := list_properties_scan_fallback_correct "test\x40example.com" exTblTwoOwners
  exact ⟨h.2.1 exMine (by simp [exTblTwoOwners]) (by rfl), h.2.2⟩

/-- C5 counterexample: the valid payload `{'title': 'Unit A', 'squareFeet': 0}`
does not survive the round trip — the stored `squareFeet` 0 is falsy, so
`format_property` emits `None` for it instead of 0. -/
theorem round_trip_drops_zero_squareFeet :
    validWirePayload c5Payload = true ∧
    roundTrips "u1" "p1" "T" c5Payload = false :=
  ⟨rfl, rfl⟩

/-- `decOr` at a present key is `decToF` of the value. -/
theorem decOr_of_dfind (item : Item) (k : String) (v : PyVal)
    (h : dfind item k = some v) : decOr item k = decToF v := by
  unfold decOr decToF
  rw [h]
  cases v <;> rfl

/-- Evaluation of the round trip when the three `int(...)`-converted fields
succeed: every output field in terms of the payload. -/
theorem roundTrip_fields (o pid now : String) (data : Item) (b sq g : PyVal)
    (hb : intFieldBind (convertFloat (dget data "bedrooms" (vInt 0))) = some b)
    (hs : sqFieldBind (convertFloat (dget data "squareFeet"
        (dget data "squareFootage" vNone))) = some sq)
    (hg : intFieldBind (convertFloat (dget data "garageCars" (vInt 0))) = some g) :
    roundTrip o pid now data =
      { id := vStr pid
        owner_id := some (vStr o)
        title := convertFloat (dget data "title" (vStr ""))
        description := convertFloat (dget data "description" (vStr ""))
        propertyType := convertFloat (dget data "property_type"
          (dget data "propertyType" (vStr "")))
        status := vStr "active"
        createdAt := vStr now
        updatedAt := vStr now
        images := none
        rent := decToF (convertFloat (dget data "price" (dget data "rent" (vInt 0))))
        bedrooms := b
        bathrooms := decToF (convertFloat (dget data "bathrooms" (vInt 0)))
        squareFeet := sq
        garageType := convertFloat (dget data "garageType" (vStr ""))
        garageCars := g
        addrStreet := convertFloat (dget data "streetAddress" (vStr ""))
        addrCity := convertFloat (dget data "city" (vStr ""))
        addrCounty := convertFloat (dget data "county" (vStr ""))
        addrState := convertFloat (dget data "state" (vStr ""))
        addrZip := convertFloat (dget data "zipCode" (vStr ""))
        addrCountry := convertFloat (dget data "country" (vStr "US")) } := by
  have hcore : format_property_core (convertItemFloats (buildPropertyItem o pid data now))
      = some
        { id := dget (convertItemFloats (buildPropertyItem o pid data now)) "id"
            (dget (convertItemFloats (buildPropertyItem o pid data now)) "property_id" (vStr ""))
          owner_id := some (dget (convertItemFloats (buildPropertyItem o pid data now))
            "owner_id" (vStr ""))
          title := dget (convertItemFloats (buildPropertyItem o pid data now)) "title" (vStr "")
          description := dget (convertItemFloats (buildPropertyItem o pid data now))
            "description" (vStr "")
          propertyType := dget (convertItemFloats (buildPropertyItem o pid data now))
            "property_type" (vStr "")
          status := dget (convertItemFloats (buildPropertyItem o pid data now))
            "status" (vStr "active")
          createdAt := dget (convertItemFloats (buildPropertyItem o pid data now))
            "created_at" (vStr "")
          updatedAt := dget (convertItemFloats (buildPropertyItem o pid data now))
            "updated_at" (vStr "")
          images := dfind (convertItemFloats (buildPropertyItem o pid data now)) "images"
          rent := decOr (convertItemFloats (buildPropertyItem o pid data now)) "price"
          bedrooms := b
          bathrooms := decOr (convertItemFloats (buildPropertyItem o pid data now)) "bathrooms"
          squareFeet := sq
          garageType := dget (convertItemFloats (buildPropertyItem o pid data now))
            "garageType" (vStr "")
          garageCars := g
          addrStreet := dget (convertItemFloats (buildPropertyItem o pid data now))
            "street_address" (vStr "")
          addrCity := dget (convertItemFloats (buildPropertyItem o pid data now))
            "city" (vStr "")
          addrCounty := dget (convertItemFloats (buildPropertyItem o pid data now))
            "county" (vStr "")
          addrState := dget (convertItemFloats (buildPropertyItem o pid data now))
            "state" (vStr "")
          addrZip := dget (convertItemFloats (buildPropertyItem o pid data now))
            "zip_code" (vStr "")
          addrCountry := dget (convertItemFloats (buildPropertyItem o pid data now))
            "country" (vStr "US") } := by
    unfold format_property_core
    rw [show dget (convertItemFloats (buildPropertyItem o pid data now)) "bedrooms" vNone
          = convertFloat (dget data "bedrooms" (vInt 0)) from rfl, hb,
        show dget (convertItemFloats (buildPropertyItem o pid data now)) "squareFeet" vNone
          = convertFloat (dget data "squareFeet" (dget data "squareFootage" vNone)) from rfl,
        hs,
        show dget (convertItemFloats (buildPropertyItem o pid data now)) "garageCars" vNone
          = convertFloat (dget data "garageCars" (vInt 0)) from rfl, hg]
    rfl
  unfold roundTrip format_property
  rw [hcore, Option.getD_some,
      decOr_of_dfind (convertItemFloats (buildPropertyItem o pid data now)) "price"
        (convertFloat (dget data "price" (dget data "rent" (vInt 0)))) (by rfl),
      decOr_of_dfind (convertItemFloats (buildPropertyItem o pid data now)) "bathrooms"
        (convertFloat (dget data "bathrooms" (vInt 0))) (by rfl)]
  rfl

theorem dget_of_dfind (d : Item) (k : String) (dflt v : PyVal)
    (h : dfind d k = some v) : dget d k dflt = v := by
  simp [dget, h]

theorem dget_of_none (d : Item) (k : String) (dflt : PyVal)
    (h : dfind d k = none) : dget d k dflt = dflt := by
  simp [dget, h]

theorem valEq_refl (v : PyVal) : valEq v v = true := by
  cases v <;> simp [valEq, asRat]

/-- `valEq` also ignores the decimal-to-float pass on read after the
float-to-decimal pass on write. -/
theorem valEq_decToF_convertFloat (v : PyVal) :
    valEq (decToF (convertFloat v)) v = true := by
  cases v <;> simp [decToF, convertFloat, valEq, asRat]

theorem isIntV_shape (v : PyVal) (h : isIntV v = true) : ∃ n, v = vInt n := by
  cases v <;> simp [isIntV] at h ⊢

/-- C5 amended: every valid wire payload whose `squareFeet` (when present) is
nonzero survives the storage round trip value-equally on every field it
carries; a zero `squareFeet` comes back as null (see the counterexample). -/
theorem round_trip_preserves_wire_fields (owner pid now : String) (data : Item)
    (hv : validWirePayload data = true) (hsq : sqftNonzero data = true) :
    roundTrips owner pid now data = true := by
  unfold validWirePayload at hv
  rw [Bool.and_eq_true] at hv
  obtain ⟨hall, hnb⟩ := hv
  have hshape : ∀ k v, dfind data k = some v → wireFieldOK k v = true := by
    intro k v h
    unfold dfind at h
    cases hf : List.find? (fun kv => kv.1 == k) data with
    | none => rw [hf] at h; cases h
    | some kv =>
      rw [hf] at h
      have hm := List.mem_of_find?_eq_some hf
      have hk : kv.1 = k := by
        have := List.find?_some hf
        simpa using this
      have hv2 : kv.2 = v := by simpa using h
      have hok := List.all_eq_true.mp hall kv hm
      rw [hk, hv2] at hok
      exact hok
  have habs : ∀ k2 : String, ¬(k2 ∈ wireStringKeys) → ¬(k2 ∈ wireIntKeys) →
      ¬(k2 ∈ wireNumKeys) → dfind data k2 = none := by
    intro k2 c1 c2 c3
    cases hf : dfind data k2 with
    | none => rfl
    | some v =>
      have hok := hshape k2 v hf
      simp [wireFieldOK, c1, c2, c3] at hok
  have hpt : dfind data "property_type" = none :=
    habs "property_type" (by decide) (by decide) (by decide)
  have hsf2 : dfind data "squareFootage" = none :=
    habs "squareFootage" (by decide) (by decide) (by decide)
  obtain ⟨b, hbbind, hbval⟩ :
      ∃ b, intFieldBind (convertFloat (dget data "bedrooms" (vInt 0))) = some b ∧
        ∀ v, dfind data "bedrooms" = some v → b = v := by
    cases hf : dfind data "bedrooms" with
    | none =>
      refine ⟨vInt 0, ?_, fun v hv2 => by simp at hv2⟩
      rw [dget_of_none _ _ _ hf]
      rfl
    | some v =>
      have hok := hshape _ _ hf
      have hint : isIntV v = true := by
        simpa [wireFieldOK, show ¬("bedrooms" ∈ wireStringKeys) from by decide,
          show ("bedrooms" ∈ wireIntKeys) from by decide] using hok
      obtain ⟨n, rfl⟩ := isIntV_shape v hint
      refine ⟨vInt n, ?_, fun v hv2 => Option.some.inj hv2⟩
      rw [dget_of_dfind _ _ _ _ hf]
      by_cases hn : n = 0
      · subst hn; rfl
      · simp [intFieldBind, convertFloat, pyTruthy, pyToInt, hn]
  obtain ⟨g, hgbind, hgval⟩ :
      ∃ g, intFieldBind (convertFloat (dget data "garageCars" (vInt 0))) = some g ∧
        ∀ v, dfind data "garageCars" = some v → g = v := by
    cases hf : dfind data "garageCars" with
    | none =>
      refine ⟨vInt 0, ?_, fun v hv2 => by simp at hv2⟩
      rw [dget_of_none _ _ _ hf]
      rfl
    | some v =>
      have hok := hshape _ _ hf
      have hint : isIntV v = true := by
        simpa [wireFieldOK, show ¬("garageCars" ∈ wireStringKeys) from by decide,
          show ("garageCars" ∈ wireIntKeys) from by decide] using hok
      obtain ⟨n, rfl⟩ := isIntV_shape v hint
      refine ⟨vInt n, ?_, fun v hv2 => Option.some.inj hv2⟩
      rw [dget_of_dfind _ _ _ _ hf]
      by_cases hn : n = 0
      · subst hn; rfl
      · simp [intFieldBind, convertFloat, pyTruthy, pyToInt, hn]
  obtain ⟨sq, hsbind, hsval⟩ :
      ∃ s, sqFieldBind (convertFloat (dget data "squareFeet"
          (dget data "squareFootage" vNone))) = some s ∧
        ∀ v, dfind data "squareFeet" = some v → s = v := by
    cases hf : dfind data "squareFeet" with
    | none =>
      refine ⟨vNone, ?_, fun v hv2 => by simp at hv2⟩
      rw [dget_of_none _ _ _ hf, dget_of_none _ _ _ hsf2]
      rfl
    | some v =>
      have hok := hshape _ _ hf
      have hint : isIntV v = true := by
        simpa [wireFieldOK, show ¬("squareFeet" ∈ wireStringKeys) from by decide,
          show ("squareFeet" ∈ wireIntKeys) from by decide] using hok
      obtain ⟨n, rfl⟩ := isIntV_shape v hint
      have hn : n ≠ 0 := by
        intro h0
        subst h0
        unfold sqftNonzero at hsq
        rw [hf] at hsq
        cases hsq
      refine ⟨vInt n, ?_, fun v hv2 => Option.some.inj hv2⟩
      rw [dget_of_dfind _ _ _ _ hf]
      simp [sqFieldBind, convertFloat, pyTruthy, pyToInt, hn]
  unfold roundTrips
  rw [List.all_eq_true]
  intro k hkmem
  unfold roundTripsAt
  cases hf : dfind data k with
  | none => rfl
  | some v =>
    rw [roundTrip_fields owner pid now data b sq g hbbind hsbind hgbind]
    have hok := hshape k v hf
    have hk16 : k ∈ wireStringKeys ∨ k ∈ wireIntKeys ∨ k ∈ wireNumKeys := by
      by_cases c1 : k ∈ wireStringKeys
      · exact Or.inl c1
      by_cases c2 : k ∈ wireIntKeys
      · exact Or.inr (Or.inl c2)
      by_cases c3 : k ∈ wireNumKeys
      · exact Or.inr (Or.inr c3)
      exfalso
      simp [wireFieldOK, c1, c2, c3] at hok
    rcases hk16 with hmem | hmem | hmem
    · simp only [wireStringKeys, List.mem_cons, List.not_mem_nil, or_false] at hmem
      rcases hmem with rfl | rfl | rfl | rfl | rfl | rfl | rfl | rfl | rfl | rfl
      · show valEq (convertFloat (dget data "title" (vStr ""))) v = true
        rw [dget_of_dfind _ _ _ _ hf]
        exact valEq_convertFloat v
      · show valEq (convertFloat (dget data "description" (vStr ""))) v = true
        rw [dget_of_dfind _ _ _ _ hf]
        exact valEq_convertFloat v
      · show valEq (convertFloat (dget data "property_type"
            (dget data "propertyType" (vStr "")))) v = true
        rw [dget_of_none _ _ _ hpt, dget_of_dfind _ _ _ _ hf]
        exact valEq_convertFloat v
      · show valEq (convertFloat (dget data "garageType" (vStr ""))) v = true
        rw [dget_of_dfind _ _ _ _ hf]
        exact valEq_convertFloat v
      · show valEq (convertFloat (dget data "streetAddress" (vStr ""))) v = true
        rw [dget_of_dfind _ _ _ _ hf]
        exact valEq_convertFloat v
      · show valEq (convertFloat (dget data "city" (vStr ""))) v = true
        rw [dget_of_dfind _ _ _ _ hf]
        exact valEq_convertFloat v
      · show valEq (convertFloat (dget data "county" (vStr ""))) v = true
        rw [dget_of_dfind _ _ _ _ hf]
        exact valEq_convertFloat v
      · show valEq (convertFloat (dget data "state" (vStr ""))) v = true
        rw [dget_of_dfind _ _ _ _ hf]
        exact valEq_convertFloat v
      · show valEq (convertFloat (dget data "zipCode" (vStr ""))) v = true
        rw [dget_of_dfind _ _ _ _ hf]
        exact valEq_convertFloat v
      · show valEq (convertFloat (dget data "country" (vStr "US"))) v = true
        rw [dget_of_dfind _ _ _ _ hf]
        exact valEq_convertFloat v
    · simp only [wireIntKeys, List.mem_cons, List.not_mem_nil, or_false] at hmem
      rcases hmem with rfl | rfl | rfl
      · show valEq b v = true
        rw [hbval v hf]
        exact valEq_refl v
      · show valEq g v = true
        rw [hgval v hf]
        exact valEq_refl v
      · show valEq sq v = true
        rw [hsval v hf]
        exact valEq_refl v
    · simp only [wireNumKeys, List.mem_cons, List.not_mem_nil, or_false] at hmem
      rcases hmem with rfl | rfl | rfl
      · show valEq (decToF (convertFloat (dget data "price"
            (dget data "rent" (vInt 0))))) v = true
        rw [dget_of_dfind _ _ _ _ hf]
        exact valEq_decToF_convertFloat v
      · have hpnone : dfind data "price" = none := by
          cases hp2 : dfind data "price" with
          | none => rfl
          | some p => rw [hp2, hf] at hnb; simp at hnb
        show valEq (decToF (convertFloat (dget data "price"
            (dget data "rent" (vInt 0))))) v = true
        rw [dget_of_none _ _ _ hpnone, dget_of_dfind _ _ _ _ hf]
        exact valEq_decToF_convertFloat v
      · show valEq (decToF (convertFloat (dget data "bathrooms" (vInt 0)))) v = true
        rw [dget_of_dfind _ _ _ _ hf]
        exact valEq_decToF_convertFloat v

theorem round_trip_preserves_wire_fields_witness :
    validWirePayload c5GoodPayload = true ∧
    sqftNonzero c5GoodPayload = true ∧
    roundTrips "u1" "p1" "T" c5GoodPayload = true :=
  ⟨rfl, rfl, round_trip_preserves_wire_fields "u1" "p1" "T" c5GoodPayload rfl rfl⟩

end Guhae
